import Mathlib

/-!
Verification of the `ai-travel-agent` repository against its specification.

The Python sources (`booking_handler.py`, `travel_agent.py`) are shallowly
embedded below.  Floating-point prices and budgets are modelled as exact
rationals (`ℚ`); Python `datetime` values are modelled as seconds counted
from the proleptic-Gregorian ordinal of the date (`toOrdinal y m d * 86400
+ seconds of day`), so that the order on modelled datetimes agrees with the
order on Python `datetime` objects; Python strings are Lean `String`s, with
ASCII models of `str.upper`, `str.title` and `str.strip`.  The external
OpenAI client is modelled as an oracle `SvcRequest → Except String String`
passed explicitly to the operations that call it, together with an explicit
count of the calls issued.
-/

/-! ## Decimal rendering (model of Python `str(int)` and `f"{n:04d}"`) -/

/-- Digits of `n` in base 10, least significant first.  The first argument is
fuel (structural recursion); `fuel ≥ n` suffices. -/
def natDigitsRevF : ℕ → ℕ → List ℕ
  | 0, n => [n]
  | f + 1, n => if n < 10 then [n] else (n % 10) :: natDigitsRevF f (n / 10)

/-- The character for a single decimal digit. -/
def digitChar10 (d : ℕ) : Char := Char.ofNat (48 + d)

/-- The numeric value of a decimal digit character. -/
def digitVal (c : Char) : ℕ := c.toNat - 48

/-- The decimal representation of `n`, as a character list (Python `str(n)`). -/
def natDecChars (n : ℕ) : List Char := ((natDigitsRevF n n).reverse).map digitChar10

/-- The decimal representation of `n`, as a string (Python `str(n)`). -/
def natDec (n : ℕ) : String := String.mk (natDecChars n)

/-- Left-pad a character list with `'0'` to length at least 4. -/
def padTo4 (l : List Char) : List Char := List.replicate (4 - l.length) '0' ++ l

/-- Python `f"{n:04d}"`: decimal representation of `n`, left-zero-padded to at
least four characters. -/
def pad4 (n : ℕ) : String := String.mk (padTo4 (natDecChars n))

/-- Value denoted by a list of decimal digit characters (most significant
first). -/
def decDigits (l : List Char) : ℕ := l.foldl (fun a c => 10 * a + digitVal c) 0

/-! ## ASCII models of Python string methods -/

/-- ASCII model of `str.upper` on one character. -/
def upChar (c : Char) : Char :=
  if decide ('a' ≤ c) && decide (c ≤ 'z') then Char.ofNat (c.toNat - 32) else c

/-- ASCII model of `str.upper`. -/
def upperAscii (s : String) : String := String.mk (s.data.map upChar)

/-- ASCII model of `str.lower` on one character. -/
def lowChar (c : Char) : Char :=
  if decide ('A' ≤ c) && decide (c ≤ 'Z') then Char.ofNat (c.toNat + 32) else c

/-- Is `c` an ASCII letter? -/
def isAsciiLetter (c : Char) : Bool :=
  (decide ('a' ≤ c) && decide (c ≤ 'z')) || (decide ('A' ≤ c) && decide (c ≤ 'Z'))

/-- ASCII model of `str.title`: the first letter of each alphabetic run is
uppercased, the following letters are lowercased. -/
def titleCase (s : String) : String :=
  String.mk (s.data.foldl
    (fun (acc : List Char × Bool) c =>
      if isAsciiLetter c then
        (acc.1 ++ [if acc.2 then lowChar c else upChar c], true)
      else
        (acc.1 ++ [c], false))
    ([], false)).1

/-- Whitespace characters recognised by the model of `str.strip()`. -/
def isWsChar (c : Char) : Bool :=
  c = ' ' || c = '\t' || c = '\n' || c = '\x0d' || c = '\x0b' || c = '\x0c'

/-- Remove the leading and trailing characters of `l` satisfying `p`. -/
def stripList (p : Char → Bool) (l : List Char) : List Char :=
  ((l.dropWhile p).reverse.dropWhile p).reverse

/-- Model of Python `str.strip()` (no argument: strip whitespace). -/
def pyStrip (s : String) : String := String.mk (stripList isWsChar s.data)

/-- Model of Python `str.strip(chars)`: strip the characters of `cs` from both
ends. -/
def pyStripChars (cs : List Char) (s : String) : String :=
  String.mk (stripList (fun c => cs.contains c) s.data)

/-- Split a character list at each occurrence of `sep` (Python
`str.split(sep)` for a one-character separator: empty pieces are kept). -/
def splitOnChar (sep : Char) : List Char → List (List Char)
  | [] => [[]]
  | c :: rest =>
    let r := splitOnChar sep rest
    if c = sep then [] :: r
    else
      match r with
      | [] => [[c]]
      | piece :: more => (c :: piece) :: more

/-! ## JSON values (model of Python `json.loads` results) -/

/-- A JSON value as produced by `json.loads`.  Besides the standard JSON
values, `json.loads` by default also accepts the non-standard constants
`NaN`, `Infinity` and `-Infinity` (parsed into the floats `nan`, `inf` and
`-inf`); these are not rationals, so they are modelled by the three dedicated
constructors `nan`, `inf` and `ninf`. -/
inductive Json where
  | null : Json
  | bool (b : Bool) : Json
  | num (q : ℚ) : Json
  | str (s : String) : Json
  | arr (elems : List Json) : Json
  | obj (members : List (String × Json)) : Json
  | nan : Json
  | inf : Json
  | ninf : Json

/-- `dict.get(k, d)` on the member list of a JSON object.  Python builds the
dict left to right, so a duplicated key keeps its last value. -/
def dictGet (kvs : List (String × Json)) (k : String) (d : Json) : Json :=
  match kvs.reverse.find? (fun kv => kv.1 == k) with
  | some kv => kv.2
  | none => d

/-! ## Booking cart (`booking_handler.py`) -/

/-- `BookingItem` from `booking_handler.py`.  `price` is modelled as an exact
rational; the opaque `details` mapping is modelled as a JSON value. -/
structure BookingItem where
  type : String
  name : String
  date : String
  price : ℚ
  details : Json
  booking_reference : Option String := none

/-- The mutable state of a `BookingHandler`. -/
structure BookingHandler where
  bookings : List BookingItem
  total_cost : ℚ

/-- `BookingHandler.__init__`. -/
def BookingHandler.init : BookingHandler := { bookings := [], total_cost := 0 }

/-- `BookingHandler.add_booking`: generates the reference
`f"{item.type.upper()}-{len(self.bookings) + 1:04d}"`, stores it on the item,
appends the item and adds its price to the running total.  Returns the
reference together with the new state. -/
def addBooking (s : BookingHandler) (item : BookingItem) : String × BookingHandler :=
  let booking_ref := upperAscii item.type ++ "-" ++ pad4 (s.bookings.length + 1)
  let item' := { item with booking_reference := some booking_ref }
  (booking_ref, { bookings := s.bookings ++ [item'], total_cost := s.total_cost + item.price })

/-- The loop of `BookingHandler.remove_booking`: scan for the first item whose
stored reference equals `ref`; if found, subtract its price from the running
total and delete it.  Returns (found, new total, new list). -/
def removeAux (ref : String) (total : ℚ) : List BookingItem → Bool × ℚ × List BookingItem
  | [] => (false, total, [])
  | b :: rest =>
    if b.booking_reference = some ref then
      (true, total - b.price, rest)
    else
      let r := removeAux ref total rest
      (r.1, r.2.1, b :: r.2.2)

/-- `BookingHandler.remove_booking`. -/
def removeBooking (s : BookingHandler) (ref : String) : Bool × BookingHandler :=
  let r := removeAux ref s.total_cost s.bookings
  (r.1, { bookings := r.2.2, total_cost := r.2.1 })

/-- Sum of the prices of the items of a cart. -/
def totalPrices (l : List BookingItem) : ℚ := (l.map (fun b => b.price)).sum

/-- One entry of the `booking_results` list built by
`BookingHandler.simulate_booking`.  A `None` reference renders as the string
`"None"` inside the f-strings, as in Python. -/
structure ConfirmationRecord where
  reference : Option String
  status : String
  confirmation_code : String
  message : String

/-- How an optional string renders inside a Python f-string. -/
def optStr : Option String → String
  | none => "None"
  | some s => s

/-- The confirmation record synthesized for one cart item. -/
def mkConfirmation (b : BookingItem) : ConfirmationRecord :=
  { reference := b.booking_reference
    status := "confirmed"
    confirmation_code := "CONF-" ++ optStr b.booking_reference
    message := titleCase b.type ++ " booking confirmed" }

/-- Result dictionary of `BookingHandler.simulate_booking`: the empty-cart
dictionary has only `success = False` and a message; the non-empty one carries
the total, the per-item records and a message. -/
inductive SimResult where
  | failure (message : String) : SimResult
  | success (total_cost : ℚ) (bookings : List ConfirmationRecord) (message : String) : SimResult

/-- The `success` flag of a simulation result. -/
def SimResult.isSuccess : SimResult → Bool
  | .failure _ => false
  | .success _ _ _ => true

/-- The reported total of a simulation result (0 when absent). -/
def SimResult.total : SimResult → ℚ
  | .failure _ => 0
  | .success t _ _ => t

/-- The per-item confirmation records of a simulation result. -/
def SimResult.records : SimResult → List ConfirmationRecord
  | .failure _ => []
  | .success _ r _ => r

/-- `BookingHandler.simulate_booking`.  The method reads `self` and never
assigns to it, so it is embedded as returning the (unchanged) state next to
the result dictionary. -/
def simulateBooking (s : BookingHandler) : SimResult × BookingHandler :=
  if s.bookings.isEmpty then
    (.failure "No items to book", s)
  else
    let booking_results := s.bookings.foldl (fun acc b => acc ++ [mkConfirmation b]) []
    (.success s.total_cost booking_results
      ("Successfully booked " ++ natDec s.bookings.length ++ " items"), s)

/-- Cart states reachable from a fresh `BookingHandler` by any sequence of
`add_booking` and `remove_booking` calls. -/
inductive Reachable : BookingHandler → Prop where
  | init : Reachable BookingHandler.init
  | add : ∀ s item, Reachable s → Reachable (addBooking s item).2
  | remove : ∀ s ref, Reachable s → Reachable (removeBooking s ref).2

/-! ## Reference pattern `^[A-Z]+-\d{4}$` -/

/-- Is `c` an uppercase ASCII letter? -/
def isUpperAZ (c : Char) : Bool := decide ('A' ≤ c) && decide (c ≤ 'Z')

/-- Does the character list consist of exactly four decimal digits? -/
def fourDigits : List Char → Bool
  | [a, b, c, d] => a.isDigit && b.isDigit && c.isDigit && d.isDigit
  | _ => false

/-- Deterministic matcher for the regular expression `^[A-Z]+-\d{4}$`:
a non-empty run of uppercase letters, then `'-'`, then exactly four digits. -/
def refPattern (s : String) : Bool :=
  (!(s.data.takeWhile isUpperAZ).isEmpty) &&
    (match s.data.dropWhile isUpperAZ with
     | '-' :: ds => fourDigits ds
     | _ => false)

/-! ## Dates (model of `datetime.strptime(s, "%Y-%m-%d")` and `datetime` order) -/

/-- Read exactly four decimal digits. -/
def read4Digits : List Char → Option (ℕ × List Char)
  | a :: b :: c :: d :: rest =>
    if a.isDigit && b.isDigit && c.isDigit && d.isDigit then
      some (((digitVal a * 10 + digitVal b) * 10 + digitVal c) * 10 + digitVal d, rest)
    else none
  | _ => none

/-- Read one or two decimal digits, greedily (Python `%m` / `%d`: the two-digit
reading only blocks a one-digit reading when the second character is itself a
digit, in which case the one-digit reading could not have continued either). -/
def read1or2Digits : List Char → Option (ℕ × List Char)
  | [] => none
  | [a] => if a.isDigit then some (digitVal a, []) else none
  | a :: b :: rest =>
    if a.isDigit && b.isDigit then some (digitVal a * 10 + digitVal b, rest)
    else if a.isDigit then some (digitVal a, b :: rest)
    else none

/-- Gregorian leap-year rule. -/
def isLeapYear (y : ℕ) : Bool := y % 4 = 0 && (y % 100 ≠ 0 || y % 400 = 0)

/-- Number of days of month `m` of year `y`. -/
def daysInMonth (y m : ℕ) : ℕ :=
  if m = 2 then (if isLeapYear y then 29 else 28)
  else if m = 4 ∨ m = 6 ∨ m = 9 ∨ m = 11 then 30 else 31

/-- Days before month `m` in a non-leap year. -/
def cumMonth : ℕ → ℕ
  | 1 => 0
  | 2 => 31
  | 3 => 59
  | 4 => 90
  | 5 => 120
  | 6 => 151
  | 7 => 181
  | 8 => 212
  | 9 => 243
  | 10 => 273
  | 11 => 304
  | 12 => 334
  | _ => 0

/-- Proleptic-Gregorian ordinal of the date `y-m-d` (as in Python
`date.toordinal`: `0001-01-01` is day 1).  Strictly monotone in calendar
order, so comparisons of parsed dates agree with `datetime` comparisons. -/
def toOrdinal (y m d : ℕ) : ℕ :=
  365 * (y - 1) + (y - 1) / 4 - (y - 1) / 100 + (y - 1) / 400 +
    cumMonth m + (if 2 < m ∧ isLeapYear y then 1 else 0) + d

/-- Model of `datetime.strptime(s, "%Y-%m-%d")`: exactly four digits for the
year, `'-'`, one or two digits for the month, `'-'`, one or two digits for the
day, end of string; the result must be a valid calendar date with year ≥ 1.
Returns the ordinal of the parsed date, or `none` where Python raises
`ValueError`. -/
def parseDate (s : String) : Option ℕ :=
  match read4Digits s.data with
  | none => none
  | some (y, rest) =>
    match rest with
    | '-' :: rest2 =>
      match read1or2Digits rest2 with
      | none => none
      | some (m, rest3) =>
        match rest3 with
        | '-' :: rest4 =>
          match read1or2Digits rest4 with
          | none => none
          | some (d, rest5) =>
            if rest5 = [] ∧ 1 ≤ y ∧ 1 ≤ m ∧ m ≤ 12 ∧ 1 ≤ d ∧ d ≤ daysInMonth y m then
              some (toOrdinal y m d)
            else none
        | _ => none
    | _ => none

/-- The modelled `datetime` (in seconds) of midnight of ordinal day `ord`;
`strptime` produces midnight datetimes. -/
def midnight (ord : ℕ) : ℕ := ord * 86400

/-! ## Travel agent (`travel_agent.py`) -/

/-- `TravelPreferences` from `travel_agent.py`.  `budget` is modelled as an
exact rational, `travelers` as an integer. -/
structure TravelPreferences where
  destination : String
  departure_date : String
  return_date : String
  budget : ℚ
  travelers : ℤ
  accommodation_type : String
  activities : List String
  dietary_restrictions : Option (List String) := none

/-- `TravelAgent.validate_preferences`.  `now` is the modelled value of
`datetime.now()` (seconds).  If either date fails to parse, the two date
checks are skipped and the single format violation is recorded (Python: the
`ValueError` of `strptime` jumps to the `except` clause); the budget,
traveler-count and destination checks always run, and every violation is
appended in program order. -/
def validatePreferences (now : ℕ) (p : TravelPreferences) : List String :=
  (match parseDate p.departure_date, parseDate p.return_date with
   | some dep, some ret =>
     (if midnight dep < now then ["Departure date cannot be in the past"] else []) ++
       (if midnight ret ≤ midnight dep then ["Return date must be after departure date"] else [])
   | _, _ => ["Please use YYYY-MM-DD format for dates"]) ++
    (if p.budget ≤ 0 then ["Budget must be greater than 0"] else []) ++
    (if p.travelers ≤ 0 then ["Number of travelers must be at least 1"] else []) ++
    (if pyStrip p.destination = "" then ["Destination cannot be empty"] else [])

/-- A request to the text-generation service: model identifier, role-tagged
messages, sampling temperature, output-length bound. -/
structure SvcRequest where
  model : String
  messages : List (String × String)
  temperature : ℚ
  max_tokens : ℕ

/-- `TravelPlan` from `travel_agent.py`.  Apart from `destination`, the fields
are filled from the dynamically-shaped parsed JSON response, so they are
modelled as JSON values. -/
structure TravelPlan where
  destination : String
  itinerary : Json
  accommodation_suggestions : Json
  flight_suggestions : Json
  estimated_cost : Json
  recommendations : Json

/-! ## JSON parser (model of `json.loads` with its default settings:
strict string handling, and the `NaN`/`Infinity`/`-Infinity` constants
accepted) -/

/-- JSON whitespace. -/
def isJsonWs (c : Char) : Bool := c = ' ' || c = '\t' || c = '\n' || c = '\x0d'

/-- Drop leading JSON whitespace. -/
def skipWs (l : List Char) : List Char := l.dropWhile isJsonWs

/-- Value of a hexadecimal digit character. -/
def hexVal (c : Char) : Option ℕ :=
  if c.isDigit then some (digitVal c)
  else if decide ('a' ≤ c) && decide (c ≤ 'f') then some (c.toNat - 87)
  else if decide ('A' ≤ c) && decide (c ≤ 'F') then some (c.toNat - 55)
  else none

/-- Parse the body of a JSON string (after the opening quote), handling the
standard escapes; unescaped control characters are rejected (strict mode). -/
def parseJStr : List Char → Option (List Char × List Char)
  | [] => none
  | '"' :: rest => some ([], rest)
  | '\\' :: e :: rest =>
    match e with
    | '"' => (parseJStr rest).map (fun r => ('"' :: r.1, r.2))
    | '\\' => (parseJStr rest).map (fun r => ('\\' :: r.1, r.2))
    | '/' => (parseJStr rest).map (fun r => ('/' :: r.1, r.2))
    | 'b' => (parseJStr rest).map (fun r => ('\x08' :: r.1, r.2))
    | 'f' => (parseJStr rest).map (fun r => ('\x0c' :: r.1, r.2))
    | 'n' => (parseJStr rest).map (fun r => ('\n' :: r.1, r.2))
    | 'r' => (parseJStr rest).map (fun r => ('\x0d' :: r.1, r.2))
    | 't' => (parseJStr rest).map (fun r => ('\t' :: r.1, r.2))
    | 'u' =>
      match rest with
      | h1 :: h2 :: h3 :: h4 :: rest' =>
        match hexVal h1, hexVal h2, hexVal h3, hexVal h4 with
        | some a, some b, some c, some d =>
          (parseJStr rest').map (fun r => (Char.ofNat (((a * 16 + b) * 16 + c) * 16 + d) :: r.1, r.2))
        | _, _, _, _ => none
      | _ => none
    | _ => none
  | c :: rest =>
    if c.toNat < 32 then none
    else (parseJStr rest).map (fun r => (c :: r.1, r.2))

/-- Parse a (possibly empty) run of decimal digits, greedily. -/
def readDigitsAcc : List Char → ℕ → ℕ → ℕ × ℕ × List Char
  | [], acc, k => (acc, k, [])
  | c :: rest, acc, k =>
    if c.isDigit then readDigitsAcc rest (acc * 10 + digitVal c) (k + 1)
    else (acc, k, c :: rest)

/-- Parse a JSON number (`-?(0|[1-9][0-9]*)(\.[0-9]+)?([eE][+-]?[0-9]+)?`)
into an exact rational. -/
def parseJNum (l : List Char) : Option (ℚ × List Char) :=
  let (neg, l1) := match l with
    | '-' :: rest => (true, rest)
    | _ => (false, l)
  match l1 with
  | [] => none
  | c :: _ =>
    if !c.isDigit then none
    else
      let (ip, ik, l2) := readDigitsAcc l1 0 0
      -- a leading zero may not be followed by further integer digits
      if c = '0' ∧ ik ≠ 1 then none
      else
        let (frac, l3) : ℚ × List Char := match l2 with
          | '.' :: rest =>
            let (fp, fk, l3') := readDigitsAcc rest 0 0
            if fk = 0 then (0, '.' :: rest) else ((fp : ℚ) / ((10 : ℚ) ^ fk), l3')
          | _ => (0, l2)
        match l3 with
        | '.' :: _ => none
        | _ =>
          let (exp, l4) : Option ℤ × List Char := match l3 with
            | 'e' :: rest => match rest with
              | '+' :: rest' =>
                let (ep, ek, l4') := readDigitsAcc rest' 0 0
                if ek = 0 then (none, l3) else (some (ep : ℤ), l4')
              | '-' :: rest' =>
                let (ep, ek, l4') := readDigitsAcc rest' 0 0
                if ek = 0 then (none, l3) else (some (-(ep : ℤ)), l4')
              | _ =>
                let (ep, ek, l4') := readDigitsAcc rest 0 0
                if ek = 0 then (none, l3) else (some (ep : ℤ), l4')
            | 'E' :: rest => match rest with
              | '+' :: rest' =>
                let (ep, ek, l4') := readDigitsAcc rest' 0 0
                if ek = 0 then (none, l3) else (some (ep : ℤ), l4')
              | '-' :: rest' =>
                let (ep, ek, l4') := readDigitsAcc rest' 0 0
                if ek = 0 then (none, l3) else (some (-(ep : ℤ)), l4')
              | _ =>
                let (ep, ek, l4') := readDigitsAcc rest 0 0
                if ek = 0 then (none, l3) else (some (ep : ℤ), l4')
            | _ => (some 0, l3)
          match exp with
          | none => none
          | some e =>
            let mag : ℚ := ((ip : ℚ) + frac) * (10 : ℚ) ^ e
            some (if neg then -mag else mag, l4)

/-- Parse one JSON value, including the non-standard constants `NaN`,
`Infinity` and `-Infinity` that `json.loads` accepts by default.  The first
argument is fuel; `input length + 2`
suffices, since every recursive call works on a strictly shorter suffix.  The
tail of an array (after `elem ,`) is parsed by re-entering the array case on
`'['` prepended to the remainder, after ruling out a trailing comma; objects
are handled the same way. -/
def parseJVal : ℕ → List Char → Option (Json × List Char)
  | 0, _ => none
  | fuel + 1, cs =>
    match skipWs cs with
    | 'n' :: 'u' :: 'l' :: 'l' :: rest => some (.null, rest)
    | 't' :: 'r' :: 'u' :: 'e' :: rest => some (.bool true, rest)
    | 'f' :: 'a' :: 'l' :: 's' :: 'e' :: rest => some (.bool false, rest)
    | '"' :: rest =>
      match parseJStr rest with
      | some (content, rest') => some (.str (String.mk content), rest')
      | none => none
    | '[' :: rest =>
      match skipWs rest with
      | ']' :: rest' => some (.arr [], rest')
      | _ =>
        match parseJVal fuel rest with
        | none => none
        | some (v, r) =>
          match skipWs r with
          | ']' :: r2 => some (.arr [v], r2)
          | ',' :: r2 =>
            match skipWs r2 with
            | ']' :: _ => none
            | _ =>
              match parseJVal fuel ('[' :: r2) with
              | some (.arr vs, r3) => some (.arr (v :: vs), r3)
              | _ => none
          | _ => none
    | '\x7b' :: rest =>
      match skipWs rest with
      | '\x7d' :: rest' => some (.obj [], rest')
      | '"' :: rest' =>
        match parseJStr rest' with
        | none => none
        | some (key, r1) =>
          match skipWs r1 with
          | ':' :: r2 =>
            match parseJVal fuel r2 with
            | none => none
            | some (v, r3) =>
              match skipWs r3 with
              | '\x7d' :: r4 => some (.obj [(String.mk key, v)], r4)
              | ',' :: r4 =>
                match skipWs r4 with
                | '"' :: _ =>
                  match parseJVal fuel ('\x7b' :: r4) with
                  | some (.obj kvs, r5) => some (.obj ((String.mk key, v) :: kvs), r5)
                  | _ => none
                | _ => none
              | _ => none
          | _ => none
      | _ => none
    | 'N' :: 'a' :: 'N' :: rest => some (.nan, rest)
    | 'I' :: 'n' :: 'f' :: 'i' :: 'n' :: 'i' :: 't' :: 'y' :: rest => some (.inf, rest)
    | '-' :: 'I' :: 'n' :: 'f' :: 'i' :: 'n' :: 'i' :: 't' :: 'y' :: rest =>
      some (.ninf, rest)
    | other => (parseJNum other).map (fun r => (.num r.1, r.2))

/-- Model of `json.loads`: parse one JSON value and require only whitespace
after it. -/
def jsonParse (s : String) : Option Json :=
  match parseJVal (s.data.length + 2) s.data with
  | some (v, rest) => if skipWs rest = [] then some v else none
  | none => none

/-! ## Plan generation and travel tips -/

/-- Rendering of a rational in the prompt f-string (model of Python float
formatting; only used inside the prompt text, which no claim inspects). -/
def ratTxt (q : ℚ) : String := toString q

/-- Rendering of an integer in the prompt f-string. -/
def intTxt (z : ℤ) : String := toString z

/-- `', '.join(...)` over the dietary-restriction list, substituting the
literal `['None']` when the list is `None` (Python `or ['None']`; an empty
list is also falsy and is replaced the same way). -/
def dietaryTxt : Option (List String) → String
  | none => "None"
  | some [] => "None"
  | some l => String.intercalate ", " l

/-- The prompt of `create_travel_plan` (the f-string between the triple
quotes, with the requested JSON schema spelled out). -/
def planPrompt (p : TravelPreferences) (duration : ℤ) : String :=
  "\nCreate a detailed travel plan for the following trip:\n\n" ++
    "Destination: " ++ p.destination ++ "\n" ++
    "Departure: " ++ p.departure_date ++ "\n" ++
    "Return: " ++ p.return_date ++ "\n" ++
    "Duration: " ++ intTxt duration ++ " days\n" ++
    "Budget: $" ++ ratTxt p.budget ++ " USD\n" ++
    "Travelers: " ++ intTxt p.travelers ++ "\n" ++
    "Accommodation Type: " ++ p.accommodation_type ++ "\n" ++
    "Preferred Activities: " ++ String.intercalate ", " p.activities ++ "\n" ++
    "Dietary Restrictions: " ++ dietaryTxt p.dietary_restrictions ++ "\n\n" ++
    "Please provide a JSON response with the following structure:\n" ++
    "\x7b\n    \"itinerary\": [\n        \x7b\n            \"day\": 1,\n" ++
    "            \"date\": \"YYYY-MM-DD\",\n" ++
    "            \"activities\": [\"activity1\", \"activity2\"],\n" ++
    "            \"meals\": [\"breakfast location\", \"lunch location\", \"dinner location\"],\n" ++
    "            \"estimated_cost\": 150.00\n        \x7d\n    ],\n" ++
    "    \"accommodation_suggestions\": [\n        \x7b\n            \"name\": \"Hotel Name\",\n" ++
    "            \"type\": \"hotel/airbnb/hostel\",\n            \"price_per_night\": 120.00,\n" ++
    "            \"rating\": 4.5,\n            \"location\": \"City Center\",\n" ++
    "            \"amenities\": [\"wifi\", \"breakfast\", \"pool\"]\n        \x7d\n    ],\n" ++
    "    \"flight_suggestions\": [\n        \x7b\n            \"route\": \"Origin - Destination\",\n" ++
    "            \"departure_time\": \"2024-01-15 08:00\",\n            \"arrival_time\": \"2024-01-15 12:00\",\n" ++
    "            \"estimated_price\": 450.00,\n            \"airline\": \"Airline Name\"\n        \x7d\n    ],\n" ++
    "    \"estimated_total_cost\": 2500.00,\n" ++
    "    \"recommendations\": [\n        \"Book flights early for better prices\",\n" ++
    "        \"Consider travel insurance\",\n        \"Check visa requirements\"\n    ]\n\x7d\n\n" ++
    "Make sure all suggestions fit within the specified budget and preferences.\n"

/-- The completion request issued by `create_travel_plan`: model `gpt-4`,
a travel-expert system message and the trip prompt, temperature 0.7, at most
2000 output tokens.  The trip duration in whole days is recomputed from the
two (already validated) dates. -/
def planReq (p : TravelPreferences) : SvcRequest :=
  let departure := (parseDate p.departure_date).getD 0
  let return_date := (parseDate p.return_date).getD 0
  let duration : ℤ := (return_date : ℤ) - (departure : ℤ)
  { model := "gpt-4"
    messages :=
      [("system", "You are an expert travel agent. Provide detailed, practical, and budget-conscious travel plans in valid JSON format."),
       ("user", planPrompt p duration)]
    temperature := 7 / 10
    max_tokens := 2000 }

/-- `TravelAgent.create_travel_plan`, with the OpenAI client modelled as the
oracle `svc` and `datetime.now()` as `now`.  Returns the result together with
the number of completion requests issued.  Control flow of the source:

* a non-empty validation result raises
  `ValueError(f"Validation errors: {', '.join(validation_errors)}")`
  before the `try` block — no request is issued;
* a failure of the request itself is re-raised as
  `ValueError(f"Error generating travel plan: {str(e)}")`;
* if the returned text is not valid JSON, `json.loads` raises
  `json.JSONDecodeError` and the function raises
  `ValueError("Failed to parse travel plan. Please try again.")`;
* if the parsed value is not a dict, `plan_data.get` raises an
  `AttributeError`, which the final `except Exception` clause wraps;
* otherwise the `TravelPlan` is built with `destination` taken from the
  preferences and every other field from `plan_data.get` with its default. -/
def createTravelPlan (svc : SvcRequest → Except String String) (now : ℕ)
    (p : TravelPreferences) : Except String TravelPlan × ℕ :=
  let validation_errors := validatePreferences now p
  if validation_errors ≠ [] then
    (.error ("Validation errors: " ++ String.intercalate ", " validation_errors), 0)
  else
    match svc (planReq p) with
    | .error e => (.error ("Error generating travel plan: " ++ e), 1)
    | .ok content =>
      match jsonParse content with
      | none => (.error "Failed to parse travel plan. Please try again.", 1)
      | some (.obj plan_data) =>
        (.ok
          { destination := p.destination
            itinerary := dictGet plan_data "itinerary" (.arr [])
            accommodation_suggestions := dictGet plan_data "accommodation_suggestions" (.arr [])
            flight_suggestions := dictGet plan_data "flight_suggestions" (.arr [])
            estimated_cost := dictGet plan_data "estimated_total_cost" (.num 0)
            recommendations := dictGet plan_data "recommendations" (.arr []) }, 1)
      | some _ =>
        (.error "Error generating travel plan: the parsed response has no attribute get", 1)

/-- The completion request issued by `get_travel_tips`: model `gpt-3.5-turbo`,
a travel-expert system message and the tips prompt, temperature 0.5, at most
800 output tokens. -/
def tipsReq (destination : String) : SvcRequest :=
  { model := "gpt-3.5-turbo"
    messages :=
      [("system", "You are a knowledgeable travel expert providing practical advice."),
       ("user",
        "\nProvide 10 essential travel tips for visiting " ++ destination ++ ". \n" ++
          "Include practical advice about:\n- Local customs and etiquette\n" ++
          "- Safety considerations\n- Money and payments\n- Transportation\n" ++
          "- Best time to visit\n- What to pack\n- Local cuisine recommendations\n" ++
          "- Cultural attractions\n- Language tips\n- Emergency contacts\n\n" ++
          "Format as a simple list of tips.\n")]
    temperature := 1 / 2
    max_tokens := 800 }

/-- `TravelAgent.get_travel_tips`: on success, the returned text is stripped,
split on newlines, each line is stripped of `'-'`/`' '` characters and then of
whitespace, and lines that were whitespace-only are dropped (the filter tests
`tip.strip()` on the line before the dash-stripping, as in the source
comprehension); on any failure of the request, a single-element list with the
wrapped error message is returned and no exception propagates. -/
def getTravelTips (svc : SvcRequest → Except String String)
    (destination : String) : List String :=
  match svc (tipsReq destination) with
  | .error e => ["Error getting travel tips: " ++ e]
  | .ok content =>
    let tips := (splitOnChar '\n' (pyStrip content).data).map String.mk
    (tips.filter (fun tip => pyStrip tip ≠ "")).map
      (fun tip => pyStrip (pyStripChars ['-', ' '] tip))

/-! ## Helper lemmas about the cart -/

theorem totalPrices_nil : totalPrices [] = 0 := rfl

theorem totalPrices_cons (b : BookingItem) (l : List BookingItem) :
    totalPrices (b :: l) = b.price + totalPrices l := by
  simp [totalPrices]

theorem totalPrices_append (l₁ l₂ : List BookingItem) :
    totalPrices (l₁ ++ l₂) = totalPrices l₁ + totalPrices l₂ := by
  simp [totalPrices]

theorem removeAux_total_eq (ref : String) (t : ℚ) (l : List BookingItem) :
    (removeAux ref t l).2.1 + totalPrices l = t + totalPrices (removeAux ref t l).2.2 := by
  induction l generalizing t with
  | nil => simp [removeAux]
  | cons b rest ih =>
    by_cases hb : b.booking_reference = some ref
    · simp [removeAux, hb, totalPrices_cons]
      ring
    · have h := ih t
      simp [removeAux, hb, totalPrices_cons]
      linarith

/-- Example item used by concrete instantiations below. -/
def exItemA : BookingItem :=
  { type := "hotel", name := "Grand Hotel", date := "2030-01-01", price := 120,
    details := Json.obj [] }

/-- Second example item. -/
def exItemB : BookingItem :=
  { type := "flight", name := "Flight - A - B", date := "2030-01-01", price := 450,
    details := Json.obj [] }

/-- C1.  For every cart state reachable from the empty cart by any sequence of
`add_booking` and `remove_booking` operations, the running total `total_cost`
equals the sum of the prices of the items currently in the cart.  Prices are
modelled as exact rationals, so the identity is exact (hence within any
floating-point tolerance ε); in particular after any N adds the total equals
the sum of the N item prices. -/
theorem totalCost_invariant (s : BookingHandler) (h : Reachable s) :
    s.total_cost = totalPrices s.bookings := by
  induction h with
  | init => simp [BookingHandler.init, totalPrices]
  | add s item _ ih =>
    simp [addBooking, totalPrices_append, totalPrices_cons, totalPrices_nil, ih]
  | remove s ref _ ih =>
    have h := removeAux_total_eq ref s.total_cost s.bookings
    simp only [removeBooking]
    linarith [h, ih]

/-- Witness for C1: the invariant evaluated on the concrete cart obtained by
two adds followed by a remove. -/
theorem totalCost_invariant_witness :
    ((removeBooking (addBooking (addBooking BookingHandler.init exItemA).2 exItemB).2
        "HOTEL-0001").2).total_cost =
      totalPrices ((removeBooking (addBooking (addBooking BookingHandler.init exItemA).2
        exItemB).2 "HOTEL-0001").2).bookings :=
  totalCost_invariant _
    (Reachable.remove _ _ (Reachable.add _ _ (Reachable.add _ _ Reachable.init)))

theorem removeAux_not_found (ref : String) (t : ℚ) (l : List BookingItem)
    (h : ∀ b ∈ l, b.booking_reference ≠ some ref) :
    removeAux ref t l = (false, t, l) := by
  induction l with
  | nil => rfl
  | cons b rest ih =>
    have hb : b.booking_reference ≠ some ref := h b (List.mem_cons_self b rest)
    have hrest := ih (fun x hx => h x (List.mem_cons_of_mem b hx))
    simp [removeAux, hb, hrest]

theorem removeAux_found (ref : String) (b : BookingItem) :
    ∀ (l₁ l₂ : List BookingItem) (t : ℚ), b.booking_reference = some ref →
      (∀ x ∈ l₁, x.booking_reference ≠ some ref) →
      removeAux ref t (l₁ ++ b :: l₂) = (true, t - b.price, l₁ ++ l₂) := by
  intro l₁
  induction l₁ with
  | nil =>
    intro l₂ t hb _
    simp [removeAux, hb]
  | cons x rest ih =>
    intro l₂ t hb hnone
    have hx : x.booking_reference ≠ some ref := hnone x (List.mem_cons_self x rest)
    have hrest := ih l₂ t hb (fun y hy => hnone y (List.mem_cons_of_mem x hy))
    simp [removeAux, hx, hrest]

/-- C4.  `remove_booking` with a reference that occurs in the cart deletes
exactly the first item (in insertion order) whose stored reference matches —
only that one item, even when later items carry the same reference — subtracts
that item's price from the running total and returns success; with a reference
no item carries, it returns failure and leaves both the cart contents and the
total unchanged. -/
theorem removeBooking_spec (s : BookingHandler) (ref : String) :
    ((∀ b ∈ s.bookings, b.booking_reference ≠ some ref) →
      removeBooking s ref = (false, s)) ∧
    (∀ (l₁ : List BookingItem) (b : BookingItem) (l₂ : List BookingItem),
      s.bookings = l₁ ++ b :: l₂ → b.booking_reference = some ref →
      (∀ x ∈ l₁, x.booking_reference ≠ some ref) →
      removeBooking s ref =
        (true, { bookings := l₁ ++ l₂, total_cost := s.total_cost - b.price })) := by
  constructor
  · intro h
    simp [removeBooking, removeAux_not_found ref s.total_cost s.bookings h]
  · intro l₁ b l₂ hsplit hb hnone
    simp [removeBooking, hsplit, removeAux_found ref b l₁ l₂ s.total_cost hb hnone]

/-- Example cart with a duplicated reference (`HOTEL-0002` occurs twice). -/
def exDupItem1 : BookingItem :=
  { type := "flight", name := "f", date := "2030-01-01", price := 450,
    details := Json.obj [], booking_reference := some "FLIGHT-0001" }

/-- Second item of the duplicate-reference cart. -/
def exDupItem2 : BookingItem :=
  { type := "hotel", name := "h1", date := "2030-01-01", price := 120,
    details := Json.obj [], booking_reference := some "HOTEL-0002" }

/-- Third item of the duplicate-reference cart, sharing the reference of the
second. -/
def exDupItem3 : BookingItem :=
  { type := "hotel", name := "h2", date := "2030-01-01", price := 80,
    details := Json.obj [], booking_reference := some "HOTEL-0002" }

/-- The duplicate-reference cart. -/
def exDupCart : BookingHandler :=
  { bookings := [exDupItem1, exDupItem2, exDupItem3], total_cost := 650 }

/-- Witness for C4: on the duplicate-reference cart, removing `HOTEL-0002`
removes only the first of the two matching items and subtracts only its
price. -/
theorem removeBooking_spec_witness :
    removeBooking exDupCart "HOTEL-0002" =
      (true, { bookings := [exDupItem1, exDupItem3],
               total_cost := exDupCart.total_cost - exDupItem2.price }) :=
  (removeBooking_spec exDupCart "HOTEL-0002").2 [exDupItem1] exDupItem2 [exDupItem3]
    rfl rfl (by decide)

theorem foldl_mkConfirmation (l : List BookingItem) :
    ∀ acc : List ConfirmationRecord,
      l.foldl (fun acc b => acc ++ [mkConfirmation b]) acc = acc ++ l.map mkConfirmation := by
  induction l with
  | nil => intro acc; simp
  | cons b rest ih => intro acc; simp [ih]

/-- C3.  `simulate_booking` on an empty cart returns a failure result with an
explanatory message and performs no mutation; on a non-empty cart it returns a
success flag, the aggregate total, and exactly one confirmation record per
cart item in cart order, each with confirmation code `CONF-{reference}` and a
`"confirmed"` status; in both cases the cart is left unmodified, so calling it
twice in a row yields identical results. -/
theorem simulateBooking_spec (s : BookingHandler) :
    (s.bookings = [] → simulateBooking s = (SimResult.failure "No items to book", s)) ∧
    (s.bookings ≠ [] →
      (simulateBooking s).1.isSuccess = true ∧
      (simulateBooking s).1.total = s.total_cost ∧
      ((simulateBooking s).1.records).length = s.bookings.length ∧
      (∀ (i : ℕ) (hi : i < ((simulateBooking s).1.records).length)
          (hi' : i < s.bookings.length),
        ((simulateBooking s).1.records).get ⟨i, hi⟩ =
          { reference := (s.bookings.get ⟨i, hi'⟩).booking_reference
            status := "confirmed"
            confirmation_code := "CONF-" ++ optStr (s.bookings.get ⟨i, hi'⟩).booking_reference
            message := titleCase (s.bookings.get ⟨i, hi'⟩).type ++ " booking confirmed" })) ∧
    (simulateBooking s).2 = s ∧
    (simulateBooking ((simulateBooking s).2)).1 = (simulateBooking s).1 := by
  have hunch : (simulateBooking s).2 = s := by
    by_cases h : s.bookings.isEmpty <;> simp [simulateBooking, h]
  refine ⟨?_, ?_, hunch, by rw [hunch]⟩
  · intro h
    simp [simulateBooking, h]
  · intro h
    have hne : s.bookings.isEmpty = false := by
      simpa [List.isEmpty_iff] using h
    refine ⟨?_, ?_, ?_, ?_⟩
    · simp [simulateBooking, hne, SimResult.isSuccess]
    · simp [simulateBooking, hne, SimResult.total]
    · simp [simulateBooking, hne, SimResult.records, foldl_mkConfirmation]
    · intro i hi hi'
      have hrec : (simulateBooking s).1.records = List.map mkConfirmation s.bookings := by
        simp [simulateBooking, hne, SimResult.records, foldl_mkConfirmation]
      rw [List.get_eq_getElem]
      simp only [hrec, List.getElem_map]
      simp [mkConfirmation]

/-- Witness for C3: the non-empty branch evaluated on the concrete
three-item cart, together with the no-mutation fact at that cart. -/
theorem simulateBooking_spec_witness :
    ((simulateBooking exDupCart).1.isSuccess = true ∧
      (simulateBooking exDupCart).1.total = exDupCart.total_cost) ∧
    (simulateBooking exDupCart).2 = exDupCart := by
  have h := simulateBooking_spec exDupCart
  exact ⟨⟨(h.2.1 (by simp [exDupCart])).1, (h.2.1 (by simp [exDupCart])).2.1⟩, h.2.2.1⟩

/-! ## Helper lemmas about references and decimal rendering -/

theorem natDigitsRevF_lt10 : ∀ (f n : ℕ), n ≤ f → ∀ d ∈ natDigitsRevF f n, d < 10 := by
  intro f
  induction f with
  | zero =>
    intro n hn d hd
    interval_cases n
    simp [natDigitsRevF] at hd
    omega
  | succ f ih =>
    intro n hn d hd
    by_cases h : n < 10
    · simp [natDigitsRevF, h] at hd
      omega
    · simp [natDigitsRevF, h] at hd
      rcases hd with hd | hd
      · omega
      · exact ih (n / 10) (by omega) d hd

theorem natDigitsRevF_length : ∀ (f n k : ℕ), n ≤ f → n < 10 ^ (k + 1) →
    (natDigitsRevF f n).length ≤ k + 1 := by
  intro f
  induction f with
  | zero => intro n k _ _; interval_cases n; simp [natDigitsRevF]
  | succ f ih =>
    intro n k hn hk
    by_cases h : n < 10
    · simp [natDigitsRevF, h]
    · have hk1 : 1 ≤ k := by
        by_contra hc
        have : k = 0 := by omega
        subst this
        simp at hk
        omega
      obtain ⟨k', rfl⟩ : ∃ k', k = k' + 1 := ⟨k - 1, by omega⟩
      have hdiv : n / 10 < 10 ^ (k' + 1) := by
        rw [Nat.div_lt_iff_lt_mul (by norm_num)]
        calc n < 10 ^ (k' + 1 + 1) := hk
        _ = 10 ^ (k' + 1) * 10 := by ring
      simp only [natDigitsRevF, h, if_false, List.length_cons]
      have := ih (n / 10) k' (by omega) hdiv
      omega

theorem digitChar10_isDigit : ∀ d : ℕ, d < 10 → (digitChar10 d).isDigit = true := by decide

theorem digitVal_digitChar10 : ∀ d : ℕ, d < 10 → digitVal (digitChar10 d) = d := by decide

theorem natDecChars_length_le (n : ℕ) (h : n ≤ 9999) : (natDecChars n).length ≤ 4 := by
  have := natDigitsRevF_length n n 3 le_rfl (by norm_num; omega)
  simp [natDecChars]
  omega

theorem natDecChars_digits (n : ℕ) : ∀ c ∈ natDecChars n, c.isDigit = true := by
  intro c hc
  simp [natDecChars] at hc
  obtain ⟨d, hd, rfl⟩ := hc
  exact digitChar10_isDigit d (natDigitsRevF_lt10 n n le_rfl d hd)

theorem fourDigits_of_len4 (l : List Char) (h4 : l.length = 4)
    (hd : ∀ c ∈ l, c.isDigit = true) : fourDigits l = true := by
  rcases l with _ | ⟨a, _ | ⟨b, _ | ⟨c, _ | ⟨d, _ | ⟨e, tl⟩⟩⟩⟩⟩ <;> simp_all [fourDigits]

theorem padTo4_length (l : List Char) (h : l.length ≤ 4) : (padTo4 l).length = 4 := by
  simp [padTo4]
  omega

theorem padTo4_digits (l : List Char) (hd : ∀ c ∈ l, c.isDigit = true) :
    ∀ c ∈ padTo4 l, c.isDigit = true := by
  intro c hc
  simp [padTo4] at hc
  rcases hc with hc | hc
  · simp [hc.2]
  · exact hd c hc

theorem fourDigits_padTo4 (n : ℕ) (h : n ≤ 9999) :
    fourDigits (padTo4 (natDecChars n)) = true :=
  fourDigits_of_len4 _ (padTo4_length _ (natDecChars_length_le n h))
    (padTo4_digits _ (natDecChars_digits n))

/-- Value of a digit list, least significant digit first. -/
def valRev : List ℕ → ℕ
  | [] => 0
  | d :: ds => d + 10 * valRev ds

theorem valRev_natDigitsRevF : ∀ (f n : ℕ), n ≤ f → valRev (natDigitsRevF f n) = n := by
  intro f
  induction f with
  | zero => intro n hn; interval_cases n; simp [natDigitsRevF, valRev]
  | succ f ih =>
    intro n hn
    by_cases h : n < 10
    · simp [natDigitsRevF, h, valRev]
    · have hdiv : n / 10 ≤ f := by
        have := Nat.div_lt_self (by omega : 0 < n) (by norm_num : 1 < 10)
        omega
      simp [natDigitsRevF, h, valRev, ih (n / 10) hdiv]
      omega

theorem foldl_dec_map_digitChar (l : List ℕ) (hl : ∀ d ∈ l, d < 10) :
    ∀ a : ℕ, (l.map digitChar10).foldl (fun a c => 10 * a + digitVal c) a =
      l.foldl (fun a d => 10 * a + d) a := by
  induction l with
  | nil => intro a; rfl
  | cons d ds ih =>
    intro a
    have hd : d < 10 := hl d (List.mem_cons_self d ds)
    simp only [List.map_cons, List.foldl_cons, digitVal_digitChar10 d hd]
    exact ih (fun x hx => hl x (List.mem_cons_of_mem d hx)) _

theorem foldl_dec_reverse (l : List ℕ) :
    ∀ a : ℕ, l.reverse.foldl (fun a d => 10 * a + d) a = a * 10 ^ l.length + valRev l := by
  induction l with
  | nil => intro a; simp [valRev]
  | cons d ds ih =>
    intro a
    simp only [List.reverse_cons, List.foldl_append, List.foldl_cons, List.foldl_nil, ih,
      valRev, List.length_cons]
    ring

theorem decDigits_natDecChars (n : ℕ) : decDigits (natDecChars n) = n := by
  have hmap := foldl_dec_map_digitChar ((natDigitsRevF n n).reverse)
    (fun d hd => natDigitsRevF_lt10 n n le_rfl d (List.mem_reverse.mp hd)) 0
  have hrev := foldl_dec_reverse (natDigitsRevF n n) 0
  have hval := valRev_natDigitsRevF n n le_rfl
  simp only [decDigits, natDecChars, hmap, hrev, hval, zero_mul, zero_add]

theorem decDigits_padTo4 (n : ℕ) : decDigits (padTo4 (natDecChars n)) = n := by
  have hrep : ∀ k (l : List Char),
      (List.replicate k '0' ++ l).foldl (fun a c => 10 * a + digitVal c) 0 =
        l.foldl (fun a c => 10 * a + digitVal c) 0 := by
    intro k
    induction k with
    | zero => intro l; rfl
    | succ k ih =>
      intro l
      have h0 : (10 * 0 + digitVal '0') = 0 := rfl
      simp only [List.replicate_succ, List.cons_append, List.foldl_cons, h0]
      exact ih l
  simp only [decDigits, padTo4, hrep]
  exact decDigits_natDecChars n

theorem takeWhile_upper_append (l₁ : List Char) (h : ∀ c ∈ l₁, isUpperAZ c = true)
    (ds : List Char) : (l₁ ++ '-' :: ds).takeWhile isUpperAZ = l₁ := by
  induction l₁ with
  | nil => simp [List.takeWhile, show isUpperAZ '-' = false by decide]
  | cons x rest ih =>
    have hx : isUpperAZ x = true := h x (List.mem_cons_self x rest)
    simp [List.takeWhile, hx, ih (fun c hc => h c (List.mem_cons_of_mem x hc))]

theorem dropWhile_upper_append (l₁ : List Char) (h : ∀ c ∈ l₁, isUpperAZ c = true)
    (ds : List Char) : (l₁ ++ '-' :: ds).dropWhile isUpperAZ = '-' :: ds := by
  induction l₁ with
  | nil => simp [List.dropWhile, show isUpperAZ '-' = false by decide]
  | cons x rest ih =>
    have hx : isUpperAZ x = true := h x (List.mem_cons_self x rest)
    simp [List.dropWhile, hx, ih (fun c hc => h c (List.mem_cons_of_mem x hc))]

/-- Counterexample for C5.  An item whose `type` is the empty string is legal
for `add_booking` (nothing restricts the category), and the returned reference
`"-0001"` does not match `^[A-Z]+-\d{4}$`. -/
theorem addBooking_refPattern_counterexample :
    refPattern (addBooking BookingHandler.init
      { type := "", name := "x", date := "2030-01-01", price := 0,
        details := Json.obj [] }).1 = false := by decide

/-- C5, amended.  For every cart holding at most 9998 items and every item
whose uppercased category is a non-empty string of uppercase ASCII letters,
`add_booking` returns the reference `{CATEGORY}-{sequence}`; it matches
`^[A-Z]+-\d{4}$`, and the suffix is the 4-character left-zero-padded decimal
numeral whose value is the cart size + 1 at the moment of insertion.  (The
restrictions are forced: an empty or non-alphabetic category breaks the
`[A-Z]+` part — see the counterexample — and from the 9999-th addition on the
sequence has five digits.) -/
theorem addBooking_refPattern (s : BookingHandler) (item : BookingItem)
    (hne : (upperAscii item.type).data ≠ [])
    (hup : ∀ c ∈ (upperAscii item.type).data, isUpperAZ c = true)
    (hsz : s.bookings.length + 1 ≤ 9999) :
    (addBooking s item).1 = upperAscii item.type ++ "-" ++ pad4 (s.bookings.length + 1) ∧
    refPattern (addBooking s item).1 = true ∧
    (padTo4 (natDecChars (s.bookings.length + 1))).length = 4 ∧
    decDigits (padTo4 (natDecChars (s.bookings.length + 1))) = s.bookings.length + 1 := by
  refine ⟨rfl, ?_, padTo4_length _ (natDecChars_length_le _ hsz), decDigits_padTo4 _⟩
  have hdata : (addBooking s item).1.data =
      (upperAscii item.type).data ++ '-' :: padTo4 (natDecChars (s.bookings.length + 1)) := by
    show (upperAscii item.type ++ "-" ++ pad4 (s.bookings.length + 1)).data = _
    simp [String.data_append, pad4]
  simp only [refPattern, hdata, takeWhile_upper_append _ hup, dropWhile_upper_append _ hup]
  simp [List.isEmpty_iff, hne, fourDigits_padTo4 _ hsz]

/-- Witness for C5 (amended): adding a `"hotel"` item to the empty cart. -/
theorem addBooking_refPattern_witness :
    (addBooking BookingHandler.init exItemA).1 =
      upperAscii exItemA.type ++ "-" ++ pad4 (BookingHandler.init.bookings.length + 1) ∧
    refPattern (addBooking BookingHandler.init exItemA).1 = true ∧
    (padTo4 (natDecChars (BookingHandler.init.bookings.length + 1))).length = 4 ∧
    decDigits (padTo4 (natDecChars (BookingHandler.init.bookings.length + 1))) =
      BookingHandler.init.bookings.length + 1 :=
  addBooking_refPattern BookingHandler.init exItemA (by decide) (by decide) (by decide)

theorem mem_ite_singleton (c : Prop) [Decidable c] (x y : String) :
    (y ∈ if c then [x] else []) ↔ (c ∧ y = x) := by
  split <;> simp_all

/-- C7.  `validate_preferences` is a pure function collecting all violations
without short-circuiting: the budget, traveler-count and destination checks
always run and report independently; the format violation appears (once)
exactly when one of the dates fails to parse, in which case only the two date
checks are skipped; when both dates parse, the two date violations appear
exactly when their respective conditions hold. -/
theorem validatePreferences_spec (now : ℕ) (p : TravelPreferences) :
    (("Please use YYYY-MM-DD format for dates" ∈ validatePreferences now p) ↔
      (parseDate p.departure_date = none ∨ parseDate p.return_date = none)) ∧
    ((parseDate p.departure_date = none ∨ parseDate p.return_date = none) →
      validatePreferences now p =
        "Please use YYYY-MM-DD format for dates" ::
          ((if p.budget ≤ 0 then ["Budget must be greater than 0"] else []) ++
           (if p.travelers ≤ 0 then ["Number of travelers must be at least 1"] else []) ++
           (if pyStrip p.destination = "" then ["Destination cannot be empty"] else []))) ∧
    (("Budget must be greater than 0" ∈ validatePreferences now p) ↔ p.budget ≤ 0) ∧
    (("Number of travelers must be at least 1" ∈ validatePreferences now p) ↔
      p.travelers ≤ 0) ∧
    (("Destination cannot be empty" ∈ validatePreferences now p) ↔
      pyStrip p.destination = "") ∧
    (∀ dep ret, parseDate p.departure_date = some dep → parseDate p.return_date = some ret →
      ((("Departure date cannot be in the past" ∈ validatePreferences now p) ↔
          midnight dep < now) ∧
       (("Return date must be after departure date" ∈ validatePreferences now p) ↔
          midnight ret ≤ midnight dep))) := by
  rcases hdep : parseDate p.departure_date with _ | dep <;>
    rcases hret : parseDate p.return_date with _ | ret <;>
      simp [validatePreferences, hdep, hret, mem_ite_singleton]

/-- Preferences with an unparsable departure date and a non-positive budget. -/
def exBadPrefs : TravelPreferences :=
  { destination := "  ", departure_date := "not-a-date", return_date := "2030-01-08",
    budget := 0, travelers := 2, accommodation_type := "hotel", activities := [] }

/-- Witness for C7: with an unparsable departure date, the single format
violation is followed by exactly the outcomes of the three date-independent
checks. -/
theorem validatePreferences_spec_witness :
    validatePreferences 0 exBadPrefs =
      "Please use YYYY-MM-DD format for dates" ::
        ((if exBadPrefs.budget ≤ 0 then ["Budget must be greater than 0"] else []) ++
         (if exBadPrefs.travelers ≤ 0 then ["Number of travelers must be at least 1"] else []) ++
         (if pyStrip exBadPrefs.destination = "" then ["Destination cannot be empty"] else [])) :=
  (validatePreferences_spec 0 exBadPrefs).2.1 (Or.inl (by decide))

/-- Valid-looking preferences whose departure date will equal the current
date. -/
def exSameDayPrefs : TravelPreferences :=
  { destination := "Paris", departure_date := "2026-10-12", return_date := "2026-10-20",
    budget := 2000, travelers := 2, accommodation_type := "hotel",
    activities := ["Museums"] }

/-- C6 (refuting evaluation).  The source compares the parsed departure — a
midnight `datetime` — against the full current `datetime` (`datetime.now()`),
so a departure date equal to the current date is flagged as past whenever the
current time is after midnight.  Concretely: the departure date `2026-10-12`
parses to the ordinal of `2026-10-12`; the current instant modelled here is
noon of that very same date (`midnight + 43200` seconds, so its calendar date
is that same ordinal); and yet the past-date violation is emitted. -/
theorem departureToday_flagged_past :
    parseDate exSameDayPrefs.departure_date = some (toOrdinal 2026 10 12) ∧
    (midnight (toOrdinal 2026 10 12) + 43200) / 86400 = toOrdinal 2026 10 12 ∧
    "Departure date cannot be in the past" ∈
      validatePreferences (midnight (toOrdinal 2026 10 12) + 43200) exSameDayPrefs := by
  refine ⟨by decide, by decide, ?_⟩
  decide

/-- A service oracle that always succeeds with the fixed text `t`. -/
def svcConst (t : String) : SvcRequest → Except String String := fun _ => Except.ok t

/-- A service oracle that always fails with the fixed error `e`. -/
def svcFail (e : String) : SvcRequest → Except String String := fun _ => Except.error e

/-- C2.  Whenever `validate_preferences` returns a non-empty violation list,
`create_travel_plan` fails immediately with the validation-error report built
from the joined violation list, and issues no request to the text-generation
service (the call count is 0, and the result does not depend on the service
oracle at all). -/
theorem createTravelPlan_invalid (svc : SvcRequest → Except String String) (now : ℕ)
    (p : TravelPreferences) (h : validatePreferences now p ≠ []) :
    createTravelPlan svc now p =
      (Except.error
        ("Validation errors: " ++ String.intercalate ", " (validatePreferences now p)), 0) := by
  simp [createTravelPlan, h]

/-- Witness for C2: on preferences with a bad date and zero budget, no call is
issued and the validation report is returned, whatever the service would
answer. -/
theorem createTravelPlan_invalid_witness :
    createTravelPlan (svcConst "unused") 0 exBadPrefs =
      (Except.error
        ("Validation errors: " ++ String.intercalate ", " (validatePreferences 0 exBadPrefs)), 0) :=
  createTravelPlan_invalid (svcConst "unused") 0 exBadPrefs (by decide)

/-- C8.  When validation passes and the service succeeds but returns text that
is not valid JSON, `create_travel_plan` fails with the parse-failure error
(`"Failed to parse travel plan. Please try again."`), no `TravelPlan` is
produced, and exactly one request was issued — no automatic retry. -/
theorem createTravelPlan_parseFailure (svc : SvcRequest → Except String String) (now : ℕ)
    (p : TravelPreferences) (text : String)
    (hv : validatePreferences now p = [])
    (hsvc : svc (planReq p) = Except.ok text)
    (hparse : jsonParse text = none) :
    createTravelPlan svc now p =
      (Except.error "Failed to parse travel plan. Please try again.", 1) := by
  simp [createTravelPlan, hv, hsvc, hparse]

/-- Preferences that validate successfully (at modelled current instant 0). -/
def exGoodPrefs : TravelPreferences :=
  { destination := "Paris", departure_date := "2030-01-01", return_date := "2030-01-08",
    budget := 2000, travelers := 2, accommodation_type := "hotel",
    activities := ["Museums"] }

/-- Witness for C8: the service answers `"not json"`; the result is the
parse-failure error after exactly one request. -/
theorem createTravelPlan_parseFailure_witness :
    createTravelPlan (svcConst "not json") 0 exGoodPrefs =
      (Except.error "Failed to parse travel plan. Please try again.", 1) :=
  createTravelPlan_parseFailure (svcConst "not json") 0 exGoodPrefs "not json"
    (by decide) rfl rfl

/-- C9.  For every destination and every failure of the text-generation
service, `get_travel_tips` propagates no exception and returns the
single-element list holding the wrapped human-readable error description. -/
theorem getTravelTips_failure (svc : SvcRequest → Except String String)
    (destination e : String) (h : svc (tipsReq destination) = Except.error e) :
    getTravelTips svc destination = ["Error getting travel tips: " ++ e] := by
  simp [getTravelTips, h]

/-- Witness for C9: a service that raises is reported as a one-element list. -/
theorem getTravelTips_failure_witness :
    getTravelTips (svcFail "Rate limit reached") "Paris" =
      ["Error getting travel tips: " ++ "Rate limit reached"] :=
  getTravelTips_failure (svcFail "Rate limit reached") "Paris" "Rate limit reached" rfl

/-- C10.  Every successfully produced `TravelPlan` carries the destination of
the input preferences verbatim: the `destination` field of the result is never
read from the parsed JSON response, whatever that response contains. -/
theorem createTravelPlan_destination (svc : SvcRequest → Except String String) (now : ℕ)
    (p : TravelPreferences) (plan : TravelPlan) (n : ℕ)
    (h : createTravelPlan svc now p = (Except.ok plan, n)) :
    plan.destination = p.destination := by
  simp only [createTravelPlan] at h
  by_cases hv : validatePreferences now p ≠ []
  · rw [if_pos hv] at h
    simp at h
  · rw [if_neg hv] at h
    cases hsvc : svc (planReq p) with
    | error e => rw [hsvc] at h; simp at h
    | ok text =>
      rw [hsvc] at h
      dsimp only at h
      cases hp : jsonParse text with
      | none => rw [hp] at h; simp at h
      | some v =>
        rw [hp] at h
        rcases v with _ | b | q | s' | elems | kvs | _ | _ | _ <;> simp_all
        rw [← h.1]

/-- The plan produced from the response `{"destination": "Mars"}` for the
example preferences: every field defaults except the destination, which is
taken from the preferences, not from the response. -/
def exPlanMars : TravelPlan :=
  { destination := "Paris", itinerary := Json.arr [],
    accommodation_suggestions := Json.arr [], flight_suggestions := Json.arr [],
    estimated_cost := Json.num 0, recommendations := Json.arr [] }

/-- Witness for C10: even though the service's JSON response carries a
`destination` field (`"Mars"`), the produced plan keeps the preferences'
destination. -/
theorem createTravelPlan_destination_witness :
    exPlanMars.destination = exGoodPrefs.destination :=
  createTravelPlan_destination (svcConst "\x7b\"destination\": \"Mars\"\x7d") 0 exGoodPrefs
    exPlanMars 1 rfl
